import Mathlib

/-!
# Lidar turret: encoder tracking, motor actuation and position stepping

A shallow embedding of `Arduino/LidarTurret/src/Lidar.cpp`.

The member variables of the C++ class become the fields of the structure `Lidar`
(the leading underscore of the C++ names is dropped), every member function becomes
a function on that structure, and what a member function reads from the hardware
(`analogRead`, `micros`) is passed in as a `Sample`.

What is written to the serial port (`writeEncoder`) and to the status LED (`setColor`)
is not part of the state.
-/

/-- Value of the preprocessor constant `ENCODER_HIGH_VALUE`. -/
def ENCODER_HIGH_VALUE : Int := 800

/-- Value of the preprocessor constant `ENCODER_LOW_VALUE`. -/
def ENCODER_LOW_VALUE : Int := 300

/-- Value of the preprocessor constant `TICKS_PER_ROTATION`. -/
def TICKS_PER_ROTATION : Int := 38

/-- Value of the preprocessor constant `DEFAULT_MOTOR_SPEED`. -/
def DEFAULT_MOTOR_SPEED : Int := 70

/-- Value of the preprocessor constant `MIN_MOTOR_SPEED`. -/
def MIN_MOTOR_SPEED : Int := 35

/-- Value of the preprocessor constant `MAX_MOTOR_SPEED`. -/
def MAX_MOTOR_SPEED : Int := 100

/-- Number of values of an `unsigned long`, the type of `micros()` and of `max_dt`. -/
def ULONG_RANGE : Int := 4294967296

/-- What one call of `update()` reads from the hardware: `analogRead(ENCODER_PIN)` is
evaluated once in the condition of the `if` and, when that branch is not taken, a second
time in the `else if`; `micros()` is read when a tick is counted. -/
structure Sample where
  reading1 : Int
  reading2 : Int
  now : Int
deriving DecidableEq, Repr

/-- Modelled from the spec: the header `Lidar.h`, which declares the member variables, is
not among the sources, so the fields are the members that `Lidar.cpp` reads and writes, with
the types the data model of the spec gives them: the tick count, the rotation count and the
two controller errors are integers without a bound, the latch and the direction are
booleans. `enc_t0`, `enc_t1` and `enc_dt` hold microsecond values of `micros()`, reduced
modulo `ULONG_RANGE` where the code assigns them. The three outputs that drive the motor
(`out_A_IN1`, `out_A_IN2`, `out_A_PWM`) are kept as the value last written to them. -/
structure Lidar where
  encoderCounts : Int
  encoderRotations : Int
  encoderLow : Bool
  enc_t0 : Int
  enc_t1 : Int
  enc_dt : Int
  motorSpeed : Int
  motorDirection : Bool
  prev_error : Int
  sum_error : Int
  paused : Bool
  pinIN1 : Bool
  pinIN2 : Bool
  pinPWM : Int
deriving DecidableEq, Repr

namespace Arduino

/-- A value brought back into the range of a 16-bit `int`, as the two's complement
arithmetic of the AVR leaves it. -/
def wrapInt (x : Int) : Int :=
  (x + 32768) % 65536 - 32768

/-- The `abs(x)` of the Arduino core, the expression `((x)>0?(x):-(x))`, on an `int`: the
negation is that of a 16-bit `int`, so the most negative value is left as it is. -/
def abs (x : Int) : Int :=
  if x > 0 then x else wrapInt (-x)

/-- The `map(x, in_min, in_max, out_min, out_max)` of the Arduino core; the division is the
truncating division of C. -/
def map (x in_min in_max out_min out_max : Int) : Int :=
  Int.tdiv ((x - in_min) * (out_max - out_min)) (in_max - in_min) + out_min

end Arduino

namespace Lidar

/-- The state the constructor `Lidar::Lidar()` leaves: counts and rotations at zero, motor
speed zero, direction forward, not paused. The fields the constructor does not assign are
given zero (`false` for the latch and the pins). -/
def fresh : Lidar :=
  { encoderCounts := 0
    encoderRotations := 0
    encoderLow := false
    enc_t0 := 0
    enc_t1 := 0
    enc_dt := 0
    motorSpeed := 0
    motorDirection := true
    prev_error := 0
    sum_error := 0
    paused := false
    pinIN1 := false
    pinIN2 := false
    pinPWM := 0 }

/-- The body of the first branch of `update()` (lines 171 to 196): the tick period is
taken from the microsecond clock in `unsigned long` arithmetic, the latch is cleared, and
the tick is counted up or down according to `motorDirection`, carrying into
`encoderRotations` at either end of the range. -/
def countTick (now : Int) (s : Lidar) : Lidar :=
  let t1 := now % ULONG_RANGE
  let s1 : Lidar :=
    { s with
      enc_t1 := t1
      enc_dt := (t1 - s.enc_t0) % ULONG_RANGE
      enc_t0 := t1
      encoderLow := false }
  if s1.motorDirection then
    if s1.encoderCounts ≥ TICKS_PER_ROTATION - 1 then
      { s1 with encoderCounts := 0, encoderRotations := s1.encoderRotations + 1 }
    else
      { s1 with encoderCounts := s1.encoderCounts + 1 }
  else
    if s1.encoderCounts ≤ 0 then
      { s1 with
        encoderCounts := TICKS_PER_ROTATION - 1
        encoderRotations := s1.encoderRotations - 1 }
    else
      { s1 with encoderCounts := s1.encoderCounts - 1 }

/-- The member function `Lidar::update()`: the returned flag is the result of the call. -/
def update (x : Sample) (s : Lidar) : Bool × Lidar :=
  if x.reading1 < ENCODER_LOW_VALUE ∧ s.encoderLow = true then
    (true, countTick x.now s)
  else if x.reading2 > ENCODER_HIGH_VALUE then
    (false, { s with encoderLow := true })
  else
    (false, s)

/-- The member function `Lidar::setMotorDirection(bool)`. -/
def setMotorDirection (direction : Bool) (s : Lidar) : Lidar :=
  if direction then
    { s with motorDirection := direction, pinIN1 := false, pinIN2 := true }
  else
    { s with motorDirection := direction, pinIN1 := true, pinIN2 := false }

/-- The value of the local `speed` of `setMotorSpeed` after lines 296 to 302: `abs` of the
`int` argument, raised to `MIN_MOTOR_SPEED` when it is below it and not zero, and capped at
`MAX_MOTOR_SPEED`. At the most negative `int` the value `abs` returns is still negative, so
it is below `MIN_MOTOR_SPEED` and not zero, and is raised to `MIN_MOTOR_SPEED`. -/
def clampSpeed (speed : Int) : Int :=
  let a : Int := Arduino.abs speed
  let b : Int := if a < MIN_MOTOR_SPEED ∧ a ≠ 0 then MIN_MOTOR_SPEED else a
  if b > MAX_MOTOR_SPEED then MAX_MOTOR_SPEED else b

/-- The member function `Lidar::setMotorSpeed(int)`. -/
def setMotorSpeed (speed : Int) (s : Lidar) : Lidar :=
  let s1 := setMotorDirection (decide (speed > 0)) s
  let duty := Arduino.map (clampSpeed speed) 0 100 0 255
  { s1 with pinPWM := duty, motorSpeed := duty }

/-- The member function `Lidar::stopMotor()`. -/
def stopMotor (s : Lidar) : Lidar :=
  { s with motorSpeed := 0, pinPWM := 0 }

/-- The member function `Lidar::goToTick(int)`. The gains `_kp`, `_kd`, `_ki` are
floating-point numbers, so the expression
`(int)(_kp * error + _kd * (error - _prev_error) + _ki * _sum_error)` is the parameter
`pid`, applied to `error`, `_prev_error` and `_sum_error`. -/
def goToTick (pid : Int → Int → Int → Int) (goal : Int) (x : Sample) (s : Lidar) :
    Bool × Lidar :=
  let s1 := (update x s).2
  let error := goal - s1.encoderCounts
  let speed := pid error s1.prev_error s1.sum_error
  let s2 := setMotorSpeed speed s1
  (decide (error = 0), { s2 with prev_error := error, sum_error := s2.sum_error + error })

/-- Successive calls of `update()`, one per sample: the state after the last call. -/
def updates : List Sample → Lidar → Lidar
  | [], s => s
  | x :: xs, s => updates xs (update x s).2

/-- Successive calls of `update()`, one per sample: the result and the state of every
call, in order. -/
def updateTrace : List Sample → Lidar → List (Bool × Lidar)
  | [], _ => []
  | x :: xs, s => update x s :: updateTrace xs (update x s).2

/-- The number of calls of `update()` that return true over a run of samples. -/
def tickEvents : List Sample → Lidar → Nat
  | [], _ => 0
  | x :: xs, s => (if (update x s).1 then 1 else 0) + tickEvents xs (update x s).2

/-- Successive calls of `update()`, each preceded by `setMotorDirection` with the
direction commanded for that sample: the state after every call, in order. -/
def directedTrace : List (Bool × Sample) → Lidar → List Lidar
  | [], _ => []
  | c :: cs, s =>
    (update c.2 (setMotorDirection c.1 s)).2 ::
      directedTrace cs (update c.2 (setMotorDirection c.1 s)).2

/-- One thousand times the exact value of `_kp * error + _kd * (error - _prev_error) +
_ki * _sum_error` for the gains the constructor sets, `_kp = 0.75`, `_kd = 0.75` and
`_ki = 0.001`. -/
def pidScaled (error prev sum : Int) : Int :=
  750 * error + 750 * (error - prev) + sum

/-- The command of `goToTick` when the expression is evaluated without rounding error: the
exact value, truncated toward zero by the conversion to `int`. -/
def pidExact (error prev sum : Int) : Int :=
  Int.tdiv (pidScaled error prev sum) 1000

/-- What is asked of an evaluation `pid` of the command expression of `goToTick`, for
errors between 0 and 38 and an accumulated error between 0 and 2000: the command is
positive when the exact value is at least 1.001, and is not positive when the exact value
is at most 0.999. Nothing is asked when the exact value is closer to 1 than that. -/
def PidSignAccurate (pid : Int → Int → Int → Int) : Prop :=
  ∀ e p a : Int, 0 ≤ e → e ≤ 38 → 0 ≤ p → p ≤ 38 → 0 ≤ a → a ≤ 2000 →
    (1001 ≤ pidScaled e p a → 0 < pid e p a) ∧ (pidScaled e p a ≤ 999 → pid e p a ≤ 0)

/-- The simulated tracker of the end-to-end scenario arms the latch before a call, so that
a reading below the low threshold fires a tick in that call. -/
def rearm (s : Lidar) : Lidar :=
  { s with encoderLow := true }

/-- The state after `k` calls of `goToTick(33)`, the latch armed before each call and the
call number `k` (from 0) reading the sample `xs k`. -/
def seekState (pid : Int → Int → Int → Int) (xs : Nat → Sample) (s0 : Lidar) : Nat → Lidar
  | 0 => s0
  | k + 1 => (goToTick pid 33 (xs k) (rearm (seekState pid xs s0 k))).2

/-- The result of call number `k` (from 0) of `goToTick(33)` in that scenario. -/
def seekResult (pid : Int → Int → Int → Int) (xs : Nat → Sample) (s0 : Lidar) (k : Nat) :
    Bool :=
  (goToTick pid 33 (xs k) (rearm (seekState pid xs s0 k))).1

/-- A check on the state `t` before a call of `goToTick(33)` that fires a tick: the error,
the previous error and the accumulated error the call works with are in the range
`PidSignAccurate` speaks of, and the exact value of the command is not exactly 1. -/
def seekSafe (t : Lidar) : Bool :=
  let u := (update ⟨0, 0, 0⟩ (rearm t)).2
  let e := 33 - u.encoderCounts
  decide (0 ≤ e ∧ e ≤ 38 ∧ 0 ≤ u.prev_error ∧ u.prev_error ≤ 38 ∧
    0 ≤ u.sum_error ∧ u.sum_error ≤ 2000 ∧ pidScaled e u.prev_error u.sum_error ≠ 1000)

/-- A check on the run of `goToTick(33)` calls with the exact command from the state `t`:
each of the first `n` calls passes `seekSafe` and returns false, and the next call returns
true. -/
def seekCheck : Nat → Lidar → Bool
  | 0, t => (goToTick pidExact 33 ⟨0, 0, 0⟩ (rearm t)).1
  | n + 1, t =>
    seekSafe t && !(goToTick pidExact 33 ⟨0, 0, 0⟩ (rearm t)).1 &&
      seekCheck n (goToTick pidExact 33 ⟨0, 0, 0⟩ (rearm t)).2

/-- The loop `while (!update()) { }` of `calibrate()` (line 339), one sample per call
of `update()`: the samples left and the state once a call has returned true. The loop has
no bound, so a list of samples that ends before a tick fires gives no result. -/
def waitFirstTick : List Sample → Lidar → Option (List Sample × Lidar)
  | [], _ => none
  | x :: xs, s =>
    if (update x s).1 then some (xs, (update x s).2) else waitFirstTick xs (update x s).2

/-- The loop `while (_encoderRotations == 0)` of `calibrate()` (lines 343 to 351), one
sample per call of `update()`, with the locals `max_dt` and `max_tick`: the samples left,
the state, `max_dt` and `max_tick` once the rotation count is no longer 0. A list of
samples that ends before that gives no result. -/
def findSlowestLoop : List Sample → Lidar → Int → Int → Option (List Sample × Lidar × Int × Int)
  | [], s, max_dt, max_tick =>
    if s.encoderRotations = 0 then none else some ([], s, max_dt, max_tick)
  | x :: xs, s, max_dt, max_tick =>
    if s.encoderRotations = 0 then
      if (update x s).1 then
        if (update x s).2.enc_dt > max_dt then
          findSlowestLoop xs (update x s).2 (update x s).2.enc_dt (update x s).2.encoderCounts
        else
          findSlowestLoop xs (update x s).2 max_dt max_tick
      else
        findSlowestLoop xs (update x s).2 max_dt max_tick
    else
      some (x :: xs, s, max_dt, max_tick)

/-- The first part of `calibrate()` (lines 333 to 351): the motor is set to
`MIN_MOTOR_SPEED + 10`, the first tick is waited for, the counts are zeroed, and the ticks
of one rotation are timed. The result holds the samples left, the state, `max_dt` and
`max_tick`. -/
def findSlowestTick (xs : List Sample) (s : Lidar) : Option (List Sample × Lidar × Int × Int) :=
  match waitFirstTick xs (setMotorSpeed (MIN_MOTOR_SPEED + 10) s) with
  | none => none
  | some (ys, s1) => findSlowestLoop ys { s1 with encoderCounts := 0, encoderRotations := 0 } 0 0

/-- The loop `while (!goToTick(goal)) { }` of `calibrate()` (lines 353 and 355), one sample
per call of `goToTick`. -/
def goToTickLoop (pid : Int → Int → Int → Int) (goal : Int) :
    List Sample → Lidar → Option (List Sample × Lidar)
  | [], _ => none
  | x :: xs, s =>
    if (goToTick pid goal x s).1 then some (xs, (goToTick pid goal x s).2)
    else goToTickLoop pid goal xs (goToTick pid goal x s).2

/-- The member function `Lidar::calibrate()`; the two `delay` calls and the status colour
are left out. -/
def calibrate (pid : Int → Int → Int → Int) (xs : List Sample) (s : Lidar) :
    Option (List Sample × Lidar) :=
  match findSlowestTick xs s with
  | none => none
  | some (ys, s1, _, max_tick) =>
    match goToTickLoop pid max_tick ys s1 with
    | none => none
    | some (zs, s2) =>
      match goToTickLoop pid 33 zs { s2 with encoderCounts := 0 } with
      | none => none
      | some (ws, s3) =>
        some (ws, setMotorSpeed DEFAULT_MOTOR_SPEED (stopMotor { s3 with encoderCounts := 0 }))

/-- A simulated run of ticks with the given periods, the previous tick having been timed
at `t`: for each period, a sample reading `hi` (which arms the latch) and then a sample
reading `lo` taken one period after the previous tick, on the `unsigned long` microsecond
clock. -/
def tickSamples (hi lo : Int) : Int → List Int → List Sample
  | _, [] => []
  | t, d :: ds =>
    ⟨hi, hi, t⟩ :: ⟨lo, lo, (t + d) % ULONG_RANGE⟩ ::
      tickSamples hi lo ((t + d) % ULONG_RANGE) ds

/-- A sequence of 38 tick periods, all equal to `p` except the one at position `j` (from
0), which is `3 * p`. -/
def tickPeriods (p : Int) (j : Nat) : List Int :=
  List.replicate j p ++ 3 * p :: List.replicate (37 - j) p

/-- The largest period and the tick index at which it first occurs, for a list of periods of
successive forward ticks, the tick before the first of them having index `c`; `acc` holds
the largest period and its index so far. -/
def slowestOf : Int → List Int → Int × Int → Int × Int
  | _, [], acc => acc
  | c, d :: ds, acc =>
    slowestOf ((c + 1) % 38) ds (if d > acc.1 then (d, (c + 1) % 38) else acc)

end Lidar

/-! ## The tick counter stays in range -/

theorem Lidar.countTick_counts_range (now : Int) (s : Lidar)
    (h : 0 ≤ s.encoderCounts ∧ s.encoderCounts < TICKS_PER_ROTATION) :
    0 ≤ (Lidar.countTick now s).encoderCounts ∧
      (Lidar.countTick now s).encoderCounts < TICKS_PER_ROTATION := by
  unfold Lidar.countTick TICKS_PER_ROTATION at *
  dsimp only
  split_ifs <;> simp <;> omega

theorem Lidar.update_counts_range (x : Sample) (s : Lidar)
    (h : 0 ≤ s.encoderCounts ∧ s.encoderCounts < TICKS_PER_ROTATION) :
    0 ≤ (Lidar.update x s).2.encoderCounts ∧
      (Lidar.update x s).2.encoderCounts < TICKS_PER_ROTATION := by
  unfold Lidar.update
  split_ifs
  · exact Lidar.countTick_counts_range x.now s h
  · exact h
  · exact h

theorem Lidar.setMotorDirection_counts (d : Bool) (s : Lidar) :
    (Lidar.setMotorDirection d s).encoderCounts = s.encoderCounts := by
  unfold Lidar.setMotorDirection
  split_ifs <;> rfl

/-- C1: starting from a state whose tick count is in [0, 38), after every call of the
sampling step `update()`, whatever the readings and whatever direction is commanded before
each sample, the tick count is again in [0, 38). -/
theorem Lidar.tickCount_in_range (cs : List (Bool × Sample)) (s : Lidar)
    (h : 0 ≤ s.encoderCounts ∧ s.encoderCounts < 38) :
    ∀ t ∈ Lidar.directedTrace cs s, 0 ≤ t.encoderCounts ∧ t.encoderCounts < 38 := by
  induction cs generalizing s with
  | nil => intro t ht; simp [Lidar.directedTrace] at ht
  | cons c cs ih =>
    intro t ht
    have hstep : 0 ≤ (Lidar.update c.2 (Lidar.setMotorDirection c.1 s)).2.encoderCounts ∧
        (Lidar.update c.2 (Lidar.setMotorDirection c.1 s)).2.encoderCounts < 38 := by
      apply Lidar.update_counts_range
      rw [Lidar.setMotorDirection_counts]
      exact h
    simp only [Lidar.directedTrace, List.mem_cons] at ht
    rcases ht with ht | ht
    · rw [ht]; exact hstep
    · exact ih _ hstep t ht

/-- Witness of C1: from tick 37, a forward tick wraps to 0 and a reverse tick wraps back. -/
theorem Lidar.tickCount_in_range_witness :
    (0 ≤ ({ Lidar.fresh with encoderCounts := 37 } : Lidar).encoderCounts ∧
      ({ Lidar.fresh with encoderCounts := 37 } : Lidar).encoderCounts < 38) ∧
    ∀ t ∈ Lidar.directedTrace
        [(true, ⟨900, 900, 10⟩), (true, ⟨100, 100, 20⟩),
         (false, ⟨900, 900, 30⟩), (false, ⟨100, 100, 40⟩)]
        { Lidar.fresh with encoderCounts := 37 },
      0 ≤ t.encoderCounts ∧ t.encoderCounts < 38 :=
  ⟨by decide, Lidar.tickCount_in_range _ _ (by decide)⟩

/-! ## When a tick fires -/

theorem Lidar.countTick_counts_ne (now : Int) (s : Lidar) :
    (Lidar.countTick now s).encoderCounts ≠ s.encoderCounts := by
  unfold Lidar.countTick TICKS_PER_ROTATION
  dsimp only
  split_ifs <;> simp <;> omega

/-- C3: `update()` returns true exactly when the reading is below 300 and the latch is
armed; when it returns true the tick count has changed, and when it returns false the tick
count and the rotation count are what they were. -/
theorem Lidar.update_fires_iff (x : Sample) (s : Lidar) :
    ((Lidar.update x s).1 = true ↔ (x.reading1 < 300 ∧ s.encoderLow = true)) ∧
    ((Lidar.update x s).1 = true →
      (Lidar.update x s).2.encoderCounts ≠ s.encoderCounts) ∧
    ((Lidar.update x s).1 = false →
      (Lidar.update x s).2.encoderCounts = s.encoderCounts ∧
      (Lidar.update x s).2.encoderRotations = s.encoderRotations) := by
  unfold Lidar.update ENCODER_LOW_VALUE
  split_ifs with h1 h2
  · exact ⟨by simpa using h1, fun _ => Lidar.countTick_counts_ne x.now s, by simp⟩
  · exact ⟨by simpa using h1, by simp, by simp⟩
  · exact ⟨by simpa using h1, by simp, by simp⟩

theorem Lidar.update_disarmed (y : Sample) (s : Lidar) (hs : s.encoderLow = false)
    (hy : y.reading2 ≤ 800) : Lidar.update y s = (false, s) := by
  unfold Lidar.update ENCODER_HIGH_VALUE
  rw [if_neg (by simp [hs]), if_neg (by omega)]

theorem Lidar.countTick_disarms (now : Int) (s : Lidar) :
    (Lidar.countTick now s).encoderLow = false := by
  unfold Lidar.countTick
  dsimp only
  split_ifs <;> rfl

theorem Lidar.updateTrace_disarmed (xs : List Sample) (s : Lidar)
    (hs : s.encoderLow = false) (hxs : ∀ y ∈ xs, y.reading1 ≤ 800 ∧ y.reading2 ≤ 800) :
    ∀ r ∈ Lidar.updateTrace xs s, r = (false, s) := by
  induction xs with
  | nil => intro r hr; simp [Lidar.updateTrace] at hr
  | cons y ys ih =>
    intro r hr
    have hy := Lidar.update_disarmed y s hs (hxs y (List.mem_cons_self y ys)).2
    simp only [Lidar.updateTrace, hy, List.mem_cons] at hr
    rcases hr with hr | hr
    · exact hr
    · exact ih (fun z hz => hxs z (List.mem_cons_of_mem y hz)) r hr

/-- C4: once `update()` has fired a tick, over any following run of calls in which no
reading exceeds 800, every call returns false and leaves the tick count and the rotation
count as they were after that tick. -/
theorem Lidar.no_second_tick (x : Sample) (s : Lidar) (xs : List Sample)
    (hfire : (Lidar.update x s).1 = true)
    (hxs : ∀ y ∈ xs, y.reading1 ≤ 800 ∧ y.reading2 ≤ 800) :
    ∀ r ∈ Lidar.updateTrace xs (Lidar.update x s).2,
      r.1 = false ∧
      r.2.encoderCounts = (Lidar.update x s).2.encoderCounts ∧
      r.2.encoderRotations = (Lidar.update x s).2.encoderRotations := by
  have hlow : (Lidar.update x s).2.encoderLow = false := by
    unfold Lidar.update at hfire ⊢
    split_ifs at hfire ⊢
    exact Lidar.countTick_disarms x.now s
  intro r hr
  rw [Lidar.updateTrace_disarmed xs _ hlow hxs r hr]
  exact ⟨rfl, rfl, rfl⟩

/-- Witness of C4: after a tick, readings that dip below 300 again and again without ever
exceeding 800 fire nothing. -/
theorem Lidar.no_second_tick_witness :
    (Lidar.update ⟨100, 100, 50⟩ { Lidar.fresh with encoderLow := true }).1 = true ∧
    (∀ y ∈ [(⟨100, 100, 60⟩ : Sample), ⟨700, 700, 70⟩, ⟨100, 800, 80⟩, ⟨299, 299, 90⟩],
      y.reading1 ≤ 800 ∧ y.reading2 ≤ 800) ∧
    ∀ r ∈ Lidar.updateTrace [⟨100, 100, 60⟩, ⟨700, 700, 70⟩, ⟨100, 800, 80⟩, ⟨299, 299, 90⟩]
        (Lidar.update ⟨100, 100, 50⟩ { Lidar.fresh with encoderLow := true }).2,
      r.1 = false ∧
      r.2.encoderCounts =
        (Lidar.update ⟨100, 100, 50⟩ { Lidar.fresh with encoderLow := true }).2.encoderCounts ∧
      r.2.encoderRotations =
        (Lidar.update ⟨100, 100, 50⟩
          { Lidar.fresh with encoderLow := true }).2.encoderRotations :=
  ⟨by decide, by decide,
    Lidar.no_second_tick ⟨100, 100, 50⟩ { Lidar.fresh with encoderLow := true }
      [⟨100, 100, 60⟩, ⟨700, 700, 70⟩, ⟨100, 800, 80⟩, ⟨299, 299, 90⟩] (by decide) (by decide)⟩

/-! ## One full rotation -/

/-- The shaft position in ticks: 38 ticks for each counted rotation plus the tick count. -/
theorem Lidar.countTick_position (now : Int) (s : Lidar)
    (h : 0 ≤ s.encoderCounts ∧ s.encoderCounts < 38) :
    (Lidar.countTick now s).motorDirection = s.motorDirection ∧
    38 * (Lidar.countTick now s).encoderRotations + (Lidar.countTick now s).encoderCounts =
      38 * s.encoderRotations + s.encoderCounts + (if s.motorDirection then 1 else -1) := by
  unfold Lidar.countTick TICKS_PER_ROTATION
  dsimp only
  split_ifs with h1 h2 h3 <;> simp [h1] <;> omega

theorem Lidar.update_fire (x : Sample) (s : Lidar)
    (hc : x.reading1 < ENCODER_LOW_VALUE ∧ s.encoderLow = true) :
    Lidar.update x s = (true, Lidar.countTick x.now s) := by
  unfold Lidar.update
  rw [if_pos hc]

theorem Lidar.update_idle (x : Sample) (s : Lidar)
    (hc : ¬(x.reading1 < ENCODER_LOW_VALUE ∧ s.encoderLow = true)) :
    (Lidar.update x s).1 = false ∧
    (Lidar.update x s).2 =
      { s with encoderLow := s.encoderLow || decide (x.reading2 > ENCODER_HIGH_VALUE) } := by
  unfold Lidar.update
  rw [if_neg hc]
  split_ifs with h2
  · simp [h2]
  · simp [h2]

theorem Lidar.update_position (x : Sample) (s : Lidar)
    (h : 0 ≤ s.encoderCounts ∧ s.encoderCounts < 38) :
    (Lidar.update x s).2.motorDirection = s.motorDirection ∧
    38 * (Lidar.update x s).2.encoderRotations + (Lidar.update x s).2.encoderCounts =
      38 * s.encoderRotations + s.encoderCounts +
        (if s.motorDirection then ((if (Lidar.update x s).1 then 1 else 0 : Nat) : Int)
          else -((if (Lidar.update x s).1 then 1 else 0 : Nat) : Int)) := by
  by_cases hc : x.reading1 < ENCODER_LOW_VALUE ∧ s.encoderLow = true
  · rw [Lidar.update_fire x s hc]
    have hp := Lidar.countTick_position x.now s h
    refine ⟨hp.1, ?_⟩
    rw [hp.2]
    cases s.motorDirection <;> simp
  · obtain ⟨h1, h2⟩ := Lidar.update_idle x s hc
    rw [h1, h2]
    simp

theorem Lidar.updates_position (xs : List Sample) (s : Lidar)
    (h : 0 ≤ s.encoderCounts ∧ s.encoderCounts < 38) :
    (Lidar.updates xs s).motorDirection = s.motorDirection ∧
    (0 ≤ (Lidar.updates xs s).encoderCounts ∧ (Lidar.updates xs s).encoderCounts < 38) ∧
    38 * (Lidar.updates xs s).encoderRotations + (Lidar.updates xs s).encoderCounts =
      38 * s.encoderRotations + s.encoderCounts +
        (if s.motorDirection then (Lidar.tickEvents xs s : Int)
          else -(Lidar.tickEvents xs s : Int)) := by
  induction xs generalizing s with
  | nil => simp [Lidar.updates, Lidar.tickEvents, h]
  | cons x xs ih =>
    have hr := Lidar.update_counts_range x s h
    obtain ⟨ihd, ihr, ihp⟩ := ih (Lidar.update x s).2 hr
    obtain ⟨hd, hp⟩ := Lidar.update_position x s h
    simp only [Lidar.updates, Lidar.tickEvents]
    refine ⟨ihd.trans hd, ihr, ?_⟩
    rw [ihp, hp, hd]
    split_ifs <;> push_cast <;> omega

/-- C2: from a state whose tick count is in [0, 38), a run of `update()` calls in which
exactly 38 ticks fire brings the tick count back to its starting value, and changes the
rotation count by exactly +1 when the motor direction is forward and by exactly -1 when it
is reverse. -/
theorem Lidar.full_rotation (xs : List Sample) (s : Lidar)
    (h : 0 ≤ s.encoderCounts ∧ s.encoderCounts < 38)
    (hn : Lidar.tickEvents xs s = 38) :
    (Lidar.updates xs s).encoderCounts = s.encoderCounts ∧
    (s.motorDirection = true →
      (Lidar.updates xs s).encoderRotations = s.encoderRotations + 1) ∧
    (s.motorDirection = false →
      (Lidar.updates xs s).encoderRotations = s.encoderRotations - 1) := by
  obtain ⟨_, hr, hp⟩ := Lidar.updates_position xs s h
  rw [hn] at hp
  cases hd : s.motorDirection <;> simp [hd] at hp ⊢ <;> omega

/-- Witness of C2: 38 pairs of an arming sample and a firing sample, once with the direction
forward and once with the direction reverse, from tick 5. -/
theorem Lidar.full_rotation_witness :
    (Lidar.tickEvents (List.flatten (List.replicate 38 [⟨900, 900, 0⟩, ⟨100, 100, 7⟩]))
        { Lidar.fresh with encoderCounts := 5 } = 38 ∧
      (Lidar.updates (List.flatten (List.replicate 38 [⟨900, 900, 0⟩, ⟨100, 100, 7⟩]))
        { Lidar.fresh with encoderCounts := 5 }).encoderRotations = 0 + 1) ∧
    (Lidar.tickEvents (List.flatten (List.replicate 38 [⟨900, 900, 0⟩, ⟨100, 100, 7⟩]))
        { Lidar.fresh with encoderCounts := 5, motorDirection := false } = 38 ∧
      (Lidar.updates (List.flatten (List.replicate 38 [⟨900, 900, 0⟩, ⟨100, 100, 7⟩]))
        { Lidar.fresh with encoderCounts := 5, motorDirection := false }).encoderRotations
          = 0 - 1) :=
  ⟨⟨by decide,
      (Lidar.full_rotation _ { Lidar.fresh with encoderCounts := 5 }
        (by decide) (by decide)).2.1 rfl⟩,
    ⟨by decide,
      (Lidar.full_rotation _ { Lidar.fresh with encoderCounts := 5, motorDirection := false }
        (by decide) (by decide)).2.2 rfl⟩⟩

/-! ## The motor command -/

theorem Lidar.setMotorSpeed_motorDirection (v : Int) (s : Lidar) :
    (Lidar.setMotorSpeed v s).motorDirection = decide (v > 0) := by
  unfold Lidar.setMotorSpeed Lidar.setMotorDirection
  dsimp only
  split_ifs <;> rfl

/-- C6 as stated fails: requesting the value 0, which is non-negative, leaves the direction
reverse. -/
theorem Lidar.setMotorSpeed_zero_reverse :
    (0 : Int) ≥ 0 ∧ (Lidar.setMotorSpeed 0 Lidar.fresh).motorDirection = false := by
  decide

/-- C6 amended: for every requested value `v` and every prior state, `setMotorSpeed(v)`
sets the direction from the sign of `v` as requested, before clamping: forward when
`v > 0`, reverse when `v ≤ 0`, the value 0 included; the two direction outputs follow. -/
theorem Lidar.setMotorSpeed_direction (v : Int) (s : Lidar) :
    ((Lidar.setMotorSpeed v s).motorDirection = true ↔ v > 0) ∧
    ((Lidar.setMotorSpeed v s).motorDirection = false ↔ v ≤ 0) ∧
    (Lidar.setMotorSpeed v s).pinIN1 = !(Lidar.setMotorSpeed v s).motorDirection ∧
    (Lidar.setMotorSpeed v s).pinIN2 = (Lidar.setMotorSpeed v s).motorDirection := by
  unfold Lidar.setMotorSpeed Lidar.setMotorDirection
  by_cases h : v > 0
  · simp [h]
  · simp [h]
    omega

/-! ## The position step -/

/-- C7: for every controller and tracker state, every sample, every target and every
value of the computed command, `goToTick(target)` returns true exactly when the tick count
left by the sampling pass the call performs first equals the target; the call leaves that
tick count in place. -/
theorem Lidar.goToTick_result (pid : Int → Int → Int → Int) (goal : Int) (x : Sample)
    (s : Lidar) :
    ((Lidar.goToTick pid goal x s).1 = true ↔ (Lidar.update x s).2.encoderCounts = goal) ∧
    (Lidar.goToTick pid goal x s).2.encoderCounts = (Lidar.update x s).2.encoderCounts := by
  unfold Lidar.goToTick Lidar.setMotorSpeed Lidar.setMotorDirection
  constructor
  · simp only [decide_eq_true_eq]
    omega
  · dsimp only
    split_ifs <;> rfl

/-! ## Stopping -/

theorem Lidar.update_motor (x : Sample) (s : Lidar) :
    (Lidar.update x s).2.motorSpeed = s.motorSpeed ∧
    (Lidar.update x s).2.pinPWM = s.pinPWM ∧
    (Lidar.update x s).2.motorDirection = s.motorDirection ∧
    (Lidar.update x s).2.pinIN1 = s.pinIN1 ∧
    (Lidar.update x s).2.pinIN2 = s.pinIN2 := by
  unfold Lidar.update Lidar.countTick
  dsimp only
  split_ifs <;> simp

/-- C8: after `stopMotor()`, after every one of any number of `update()` calls, whatever
the readings, the motor command is what `stopMotor()` left: speed 0, duty output 0, and the
direction and the direction outputs as they were before the stop. -/
theorem Lidar.stopMotor_holds (xs : List Sample) (s : Lidar) :
    ∀ r ∈ Lidar.updateTrace xs (Lidar.stopMotor s),
      r.2.motorSpeed = 0 ∧ r.2.pinPWM = 0 ∧
      r.2.motorDirection = s.motorDirection ∧
      r.2.pinIN1 = s.pinIN1 ∧ r.2.pinIN2 = s.pinIN2 := by
  have key : ∀ (ys : List Sample) (t : Lidar), ∀ r ∈ Lidar.updateTrace ys t,
      r.2.motorSpeed = t.motorSpeed ∧ r.2.pinPWM = t.pinPWM ∧
      r.2.motorDirection = t.motorDirection ∧
      r.2.pinIN1 = t.pinIN1 ∧ r.2.pinIN2 = t.pinIN2 := by
    intro ys
    induction ys with
    | nil => intro t r hr; simp [Lidar.updateTrace] at hr
    | cons y ys ih =>
      intro t r hr
      obtain ⟨h1, h2, h3, h4, h5⟩ := Lidar.update_motor y t
      simp only [Lidar.updateTrace, List.mem_cons] at hr
      rcases hr with hr | hr
      · rw [hr]; exact ⟨h1, h2, h3, h4, h5⟩
      · obtain ⟨g1, g2, g3, g4, g5⟩ := ih _ r hr
        exact ⟨g1.trans h1, g2.trans h2, g3.trans h3, g4.trans h4, g5.trans h5⟩
  intro r hr
  exact key xs (Lidar.stopMotor s) r hr

/-- Witness of C8: the motor running forward at speed 70 is stopped, the latch is armed and
a tick fires; the state after that tick still has the motor stopped. -/
theorem Lidar.stopMotor_holds_witness :
    Lidar.update ⟨100, 100, 20⟩
        (Lidar.update ⟨900, 900, 10⟩
          (Lidar.stopMotor (Lidar.setMotorSpeed 70 Lidar.fresh))).2 ∈
      Lidar.updateTrace [⟨900, 900, 10⟩, ⟨100, 100, 20⟩]
        (Lidar.stopMotor (Lidar.setMotorSpeed 70 Lidar.fresh)) ∧
    (Lidar.update ⟨100, 100, 20⟩
        (Lidar.update ⟨900, 900, 10⟩
          (Lidar.stopMotor (Lidar.setMotorSpeed 70 Lidar.fresh))).2).1 = true ∧
    ((Lidar.update ⟨100, 100, 20⟩
        (Lidar.update ⟨900, 900, 10⟩
          (Lidar.stopMotor (Lidar.setMotorSpeed 70 Lidar.fresh))).2).2.motorSpeed = 0 ∧
      (Lidar.update ⟨100, 100, 20⟩
        (Lidar.update ⟨900, 900, 10⟩
          (Lidar.stopMotor (Lidar.setMotorSpeed 70 Lidar.fresh))).2).2.pinPWM = 0 ∧
      (Lidar.update ⟨100, 100, 20⟩
        (Lidar.update ⟨900, 900, 10⟩
          (Lidar.stopMotor (Lidar.setMotorSpeed 70 Lidar.fresh))).2).2.motorDirection =
        (Lidar.setMotorSpeed 70 Lidar.fresh).motorDirection ∧
      (Lidar.update ⟨100, 100, 20⟩
        (Lidar.update ⟨900, 900, 10⟩
          (Lidar.stopMotor (Lidar.setMotorSpeed 70 Lidar.fresh))).2).2.pinIN1 =
        (Lidar.setMotorSpeed 70 Lidar.fresh).pinIN1 ∧
      (Lidar.update ⟨100, 100, 20⟩
        (Lidar.update ⟨900, 900, 10⟩
          (Lidar.stopMotor (Lidar.setMotorSpeed 70 Lidar.fresh))).2).2.pinIN2 =
        (Lidar.setMotorSpeed 70 Lidar.fresh).pinIN2) :=
  ⟨by decide, by decide,
    Lidar.stopMotor_holds [⟨900, 900, 10⟩, ⟨100, 100, 20⟩] (Lidar.setMotorSpeed 70 Lidar.fresh)
      _ (by decide)⟩

/-! ## Seeking tick 33 -/

theorem Lidar.pidExact_accurate : Lidar.PidSignAccurate Lidar.pidExact := by
  intro e p a _ _ _ _ _ _
  unfold Lidar.pidExact
  constructor
  · intro h
    rw [Int.tdiv_eq_ediv (by omega) (by omega)]
    omega
  · intro h
    by_cases hn : 0 ≤ Lidar.pidScaled e p a
    · rw [Int.tdiv_eq_ediv hn (by omega)]
      omega
    · have h1 : Lidar.pidScaled e p a = -(-Lidar.pidScaled e p a) := by omega
      rw [h1, Int.neg_tdiv]
      have := Int.tdiv_nonneg (show 0 ≤ -Lidar.pidScaled e p a by omega)
        (show (0 : Int) ≤ 1000 by omega)
      omega

/-- The four fields a firing call of `goToTick` reads. -/
theorem Lidar.goToTick_fired (pid : Int → Int → Int → Int) (goal : Int) (x : Sample)
    (s : Lidar) (hx : x.reading1 < 300) :
    (Lidar.update x (Lidar.rearm s)).2.encoderCounts =
      (if s.motorDirection then (if s.encoderCounts ≥ 37 then 0 else s.encoderCounts + 1)
        else (if s.encoderCounts ≤ 0 then 37 else s.encoderCounts - 1)) ∧
    (Lidar.update x (Lidar.rearm s)).2.prev_error = s.prev_error ∧
    (Lidar.update x (Lidar.rearm s)).2.sum_error = s.sum_error ∧
    (Lidar.goToTick pid goal x (Lidar.rearm s)).1 =
      decide (goal - (Lidar.update x (Lidar.rearm s)).2.encoderCounts = 0) ∧
    (Lidar.goToTick pid goal x (Lidar.rearm s)).2.encoderCounts =
      (Lidar.update x (Lidar.rearm s)).2.encoderCounts ∧
    (Lidar.goToTick pid goal x (Lidar.rearm s)).2.motorDirection =
      decide (pid (goal - (Lidar.update x (Lidar.rearm s)).2.encoderCounts)
        s.prev_error s.sum_error > 0) ∧
    (Lidar.goToTick pid goal x (Lidar.rearm s)).2.prev_error =
      goal - (Lidar.update x (Lidar.rearm s)).2.encoderCounts ∧
    (Lidar.goToTick pid goal x (Lidar.rearm s)).2.sum_error =
      s.sum_error + (goal - (Lidar.update x (Lidar.rearm s)).2.encoderCounts) := by
  have hu : Lidar.update x (Lidar.rearm s) = (true, Lidar.countTick x.now (Lidar.rearm s)) :=
    Lidar.update_fire x _ ⟨hx, rfl⟩
  have hc : (Lidar.countTick x.now (Lidar.rearm s)).encoderCounts =
      (if s.motorDirection then (if s.encoderCounts ≥ 37 then 0 else s.encoderCounts + 1)
        else (if s.encoderCounts ≤ 0 then 37 else s.encoderCounts - 1)) ∧
      (Lidar.countTick x.now (Lidar.rearm s)).prev_error = s.prev_error ∧
      (Lidar.countTick x.now (Lidar.rearm s)).sum_error = s.sum_error := by
    unfold Lidar.countTick Lidar.rearm TICKS_PER_ROTATION
    dsimp only
    split_ifs <;> simp_all
  unfold Lidar.goToTick Lidar.setMotorSpeed Lidar.setMotorDirection
  rw [hu]
  dsimp only
  refine ⟨hc.1, hc.2.1, hc.2.2, rfl, ?_, ?_, ?_, ?_⟩
  · split_ifs <;> rfl
  · rw [hc.2.1, hc.2.2]; split_ifs with h <;> simp_all
  · rfl
  · rw [← hc.2.2]; split_ifs <;> rfl

/-- Two firing calls of `goToTick` from states that agree on the tick count and the motor
direction leave the same tick count after sampling and return the same result. -/
theorem Lidar.goToTick_fired_result_congr (pid pid2 : Int → Int → Int → Int) (x y : Sample)
    (s t : Lidar) (hx : x.reading1 < 300) (hy : y.reading1 < 300)
    (hc : s.encoderCounts = t.encoderCounts) (hd : s.motorDirection = t.motorDirection) :
    (Lidar.update x (Lidar.rearm s)).2.encoderCounts =
      (Lidar.update y (Lidar.rearm t)).2.encoderCounts ∧
    (Lidar.goToTick pid 33 x (Lidar.rearm s)).1 =
      (Lidar.goToTick pid2 33 y (Lidar.rearm t)).1 := by
  obtain ⟨a1, _, _, a4, _⟩ := Lidar.goToTick_fired pid 33 x s hx
  obtain ⟨b1, _, _, b4, _⟩ := Lidar.goToTick_fired pid2 33 y t hy
  have hcount : (Lidar.update x (Lidar.rearm s)).2.encoderCounts =
      (Lidar.update y (Lidar.rearm t)).2.encoderCounts := by
    rw [a1, b1, hc, hd]
  exact ⟨hcount, by rw [a4, b4, hcount]⟩

/-- Two firing calls of `goToTick`, with two sign-accurate evaluations of the command, from
states that agree on tick count, direction, previous error and accumulated error, leave
states that agree on them again, provided the second state passes `seekSafe`. -/
theorem Lidar.goToTick_fired_congr (pid pid2 : Int → Int → Int → Int)
    (hp : Lidar.PidSignAccurate pid) (hp2 : Lidar.PidSignAccurate pid2) (x : Sample)
    (s t : Lidar) (hx : x.reading1 < 300)
    (hc : s.encoderCounts = t.encoderCounts) (hd : s.motorDirection = t.motorDirection)
    (he : s.prev_error = t.prev_error) (ha : s.sum_error = t.sum_error)
    (hsafe : Lidar.seekSafe t = true) :
    (Lidar.goToTick pid 33 x (Lidar.rearm s)).2.encoderCounts =
      (Lidar.goToTick pid2 33 ⟨0, 0, 0⟩ (Lidar.rearm t)).2.encoderCounts ∧
    (Lidar.goToTick pid 33 x (Lidar.rearm s)).2.motorDirection =
      (Lidar.goToTick pid2 33 ⟨0, 0, 0⟩ (Lidar.rearm t)).2.motorDirection ∧
    (Lidar.goToTick pid 33 x (Lidar.rearm s)).2.prev_error =
      (Lidar.goToTick pid2 33 ⟨0, 0, 0⟩ (Lidar.rearm t)).2.prev_error ∧
    (Lidar.goToTick pid 33 x (Lidar.rearm s)).2.sum_error =
      (Lidar.goToTick pid2 33 ⟨0, 0, 0⟩ (Lidar.rearm t)).2.sum_error := by
  have hz : (⟨0, 0, 0⟩ : Sample).reading1 < 300 := by decide
  obtain ⟨a1, _, _, _, a5, a6, a7, a8⟩ := Lidar.goToTick_fired pid 33 x s hx
  obtain ⟨b1, b2, b3, _, b5, b6, b7, b8⟩ := Lidar.goToTick_fired pid2 33 ⟨0, 0, 0⟩ t hz
  have hcount : (Lidar.update x (Lidar.rearm s)).2.encoderCounts =
      (Lidar.update ⟨0, 0, 0⟩ (Lidar.rearm t)).2.encoderCounts := by
    rw [a1, b1, hc, hd]
  unfold Lidar.seekSafe at hsafe
  simp only [decide_eq_true_eq, b2, b3] at hsafe
  obtain ⟨s1, s2, s3, s4, s5, s6, s7⟩ := hsafe
  obtain ⟨p1, p2⟩ := hp _ _ _ s1 s2 s3 s4 s5 s6
  obtain ⟨q1, q2⟩ := hp2 _ _ _ s1 s2 s3 s4 s5 s6
  refine ⟨by rw [a5, b5, hcount], ?_, by rw [a7, b7, hcount], by rw [a8, b8, hcount, ha]⟩
  rw [a6, b6, hcount, he, ha]
  by_cases hN : 1001 ≤ Lidar.pidScaled (33 - (Lidar.update ⟨0, 0, 0⟩ (Lidar.rearm t)).2.encoderCounts)
      t.prev_error t.sum_error
  · have h1 := p1 hN
    have h2 := q1 hN
    rw [decide_eq_true (by omega), decide_eq_true (by omega)]
  · have hN2 : Lidar.pidScaled (33 - (Lidar.update ⟨0, 0, 0⟩ (Lidar.rearm t)).2.encoderCounts)
        t.prev_error t.sum_error ≤ 999 := by omega
    have h1 := p2 hN2
    have h2 := q2 hN2
    rw [decide_eq_false (by omega), decide_eq_false (by omega)]

theorem Lidar.seekState_shift (pid : Int → Int → Int → Int) (c : Sample) (s0 : Lidar)
    (k : Nat) :
    Lidar.seekState pid (fun _ => c) s0 (k + 1) =
      Lidar.seekState pid (fun _ => c) (Lidar.goToTick pid 33 c (Lidar.rearm s0)).2 k := by
  induction k with
  | zero => rfl
  | succ k ih =>
    show (Lidar.goToTick pid 33 c (Lidar.rearm (Lidar.seekState pid (fun _ => c) s0 (k + 1)))).2
      = (Lidar.goToTick pid 33 c (Lidar.rearm (Lidar.seekState pid (fun _ => c)
          (Lidar.goToTick pid 33 c (Lidar.rearm s0)).2 k))).2
    rw [ih]

theorem Lidar.seekCheck_sound (n : Nat) (t : Lidar) (h : Lidar.seekCheck n t = true) :
    (∀ j, j < n →
      Lidar.seekSafe (Lidar.seekState Lidar.pidExact (fun _ => ⟨0, 0, 0⟩) t j) = true ∧
      Lidar.seekResult Lidar.pidExact (fun _ => ⟨0, 0, 0⟩) t j = false) ∧
    Lidar.seekResult Lidar.pidExact (fun _ => ⟨0, 0, 0⟩) t n = true := by
  induction n generalizing t with
  | zero =>
    refine ⟨fun j hj => absurd hj (Nat.not_lt_zero j), ?_⟩
    exact h
  | succ n ih =>
    simp only [Lidar.seekCheck, Bool.and_eq_true, Bool.not_eq_true_eq_eq_false] at h
    obtain ⟨⟨hsafe, hres⟩, hrest⟩ := h
    obtain ⟨ih1, ih2⟩ := ih _ hrest
    constructor
    · intro j hj
      cases j with
      | zero => exact ⟨hsafe, hres⟩
      | succ j =>
        have := ih1 j (Nat.lt_of_succ_lt_succ hj)
        unfold Lidar.seekResult at this ⊢
        rw [Lidar.seekState_shift]
        exact this
    · unfold Lidar.seekResult at ih2 ⊢
      rw [Lidar.seekState_shift]
      exact ih2

theorem Lidar.seekState_agree (pid : Int → Int → Int → Int)
    (hp : Lidar.PidSignAccurate pid) (xs : Nat → Sample)
    (hxs : ∀ k, (xs k).reading1 < 300) (s0 t0 : Lidar)
    (hc : s0.encoderCounts = t0.encoderCounts) (hd : s0.motorDirection = t0.motorDirection)
    (he : s0.prev_error = t0.prev_error) (ha : s0.sum_error = t0.sum_error) (k : Nat)
    (hsafe : ∀ j, j < k →
      Lidar.seekSafe (Lidar.seekState Lidar.pidExact (fun _ => ⟨0, 0, 0⟩) t0 j) = true) :
    (Lidar.seekState pid xs s0 k).encoderCounts =
      (Lidar.seekState Lidar.pidExact (fun _ => ⟨0, 0, 0⟩) t0 k).encoderCounts ∧
    (Lidar.seekState pid xs s0 k).motorDirection =
      (Lidar.seekState Lidar.pidExact (fun _ => ⟨0, 0, 0⟩) t0 k).motorDirection ∧
    (Lidar.seekState pid xs s0 k).prev_error =
      (Lidar.seekState Lidar.pidExact (fun _ => ⟨0, 0, 0⟩) t0 k).prev_error ∧
    (Lidar.seekState pid xs s0 k).sum_error =
      (Lidar.seekState Lidar.pidExact (fun _ => ⟨0, 0, 0⟩) t0 k).sum_error := by
  induction k with
  | zero => exact ⟨hc, hd, he, ha⟩
  | succ k ih =>
    obtain ⟨i1, i2, i3, i4⟩ := ih (fun j hj => hsafe j (Nat.lt_succ_of_lt hj))
    exact Lidar.goToTick_fired_congr pid Lidar.pidExact hp Lidar.pidExact_accurate (xs k)
      _ _ (hxs k) i1 i2 i3 i4 (hsafe k (Nat.lt_succ_self k))

set_option maxRecDepth 100000 in
theorem Lidar.seekCheck_fresh : Lidar.seekCheck 348 Lidar.fresh = true := by
  decide

/-- C9: from tick count 0 with a fresh controller (previous error 0, accumulated error 0,
direction forward), when `goToTick(33)` is called again and again, every call firing one
tick, and the command is evaluated with an accurate sign, some call returns true (the
349th, number 348 counting from 0); the tick count after its sampling pass is 33, and every
earlier call returns false with a tick count other than 33 after its sampling pass. -/
theorem Lidar.goToTick_reaches_goal (pid : Int → Int → Int → Int)
    (hp : Lidar.PidSignAccurate pid) (xs : Nat → Sample)
    (hxs : ∀ k, (xs k).reading1 < 300) (s0 : Lidar)
    (h0 : s0.encoderCounts = 0 ∧ s0.prev_error = 0 ∧ s0.sum_error = 0 ∧
      s0.motorDirection = true) :
    ∃ n, n = 348 ∧
      Lidar.seekResult pid xs s0 n = true ∧
      (Lidar.update (xs n) (Lidar.rearm (Lidar.seekState pid xs s0 n))).2.encoderCounts = 33 ∧
      ∀ m, m < n →
        Lidar.seekResult pid xs s0 m = false ∧
        (Lidar.update (xs m) (Lidar.rearm (Lidar.seekState pid xs s0 m))).2.encoderCounts
          ≠ 33 := by
  obtain ⟨hsafe, hlast⟩ := Lidar.seekCheck_sound 348 Lidar.fresh Lidar.seekCheck_fresh
  have hz : (⟨0, 0, 0⟩ : Sample).reading1 < 300 := by decide
  have agree : ∀ k, k ≤ 348 →
      (Lidar.seekState pid xs s0 k).encoderCounts =
        (Lidar.seekState Lidar.pidExact (fun _ => ⟨0, 0, 0⟩) Lidar.fresh k).encoderCounts ∧
      (Lidar.seekState pid xs s0 k).motorDirection =
        (Lidar.seekState Lidar.pidExact (fun _ => ⟨0, 0, 0⟩) Lidar.fresh k).motorDirection := by
    intro k hk
    obtain ⟨a1, a2, _, _⟩ := Lidar.seekState_agree pid hp xs hxs s0 Lidar.fresh
      h0.1 h0.2.2.2 h0.2.1 h0.2.2.1 k (fun j hj => (hsafe j (by omega)).1)
    exact ⟨a1, a2⟩
  have result : ∀ k, k ≤ 348 →
      Lidar.seekResult pid xs s0 k =
        Lidar.seekResult Lidar.pidExact (fun _ => ⟨0, 0, 0⟩) Lidar.fresh k := by
    intro k hk
    obtain ⟨a1, a2⟩ := agree k hk
    exact (Lidar.goToTick_fired_result_congr pid Lidar.pidExact (xs k) ⟨0, 0, 0⟩ _ _
      (hxs k) hz a1 a2).2
  have sampled : ∀ k,
      (Lidar.seekResult pid xs s0 k = true ↔
        (Lidar.update (xs k) (Lidar.rearm (Lidar.seekState pid xs s0 k))).2.encoderCounts
          = 33) := by
    intro k
    obtain ⟨_, _, _, a4, _⟩ := Lidar.goToTick_fired pid 33 (xs k)
      (Lidar.seekState pid xs s0 k) (hxs k)
    unfold Lidar.seekResult
    rw [a4, decide_eq_true_eq]
    omega
  refine ⟨348, rfl, ?_, ?_, ?_⟩
  · rw [result 348 (le_refl _)]; exact hlast
  · exact (sampled 348).mp (by rw [result 348 (le_refl _)]; exact hlast)
  · intro m hm
    have hf : Lidar.seekResult pid xs s0 m = false := by
      rw [result m (by omega)]; exact (hsafe m hm).2
    refine ⟨hf, fun h33 => ?_⟩
    rw [(sampled m).mpr h33] at hf
    exact Bool.noConfusion hf

/-- Witness of C9: the exact evaluation of the command, every sample reading 0, from the
state the constructor leaves. -/
theorem Lidar.goToTick_reaches_goal_witness :
    ∃ n, n = 348 ∧
      Lidar.seekResult Lidar.pidExact (fun _ => ⟨0, 0, 0⟩) Lidar.fresh n = true ∧
      (Lidar.update ⟨0, 0, 0⟩ (Lidar.rearm
        (Lidar.seekState Lidar.pidExact (fun _ => ⟨0, 0, 0⟩) Lidar.fresh n))).2.encoderCounts
          = 33 ∧
      ∀ m, m < n →
        Lidar.seekResult Lidar.pidExact (fun _ => ⟨0, 0, 0⟩) Lidar.fresh m = false ∧
        (Lidar.update ⟨0, 0, 0⟩ (Lidar.rearm
          (Lidar.seekState Lidar.pidExact (fun _ => ⟨0, 0, 0⟩) Lidar.fresh m))).2.encoderCounts
            ≠ 33 :=
  Lidar.goToTick_reaches_goal Lidar.pidExact Lidar.pidExact_accurate (fun _ => ⟨0, 0, 0⟩)
    (fun _ => (by decide : (⟨0, 0, 0⟩ : Sample).reading1 < 300)) Lidar.fresh
    ⟨rfl, rfl, rfl, rfl⟩

/-! ## Finding the slowest tick -/

theorem Lidar.waitFirstTick_append (pre ys : List Sample) (s s1 : Lidar)
    (h : Lidar.waitFirstTick pre s = some ([], s1)) :
    Lidar.waitFirstTick (pre ++ ys) s = some (ys, s1) := by
  induction pre generalizing s with
  | nil => simp [Lidar.waitFirstTick] at h
  | cons x xs ih =>
    simp only [Lidar.waitFirstTick, List.cons_append] at h ⊢
    split_ifs at h ⊢ with hf
    · simp only [Option.some.injEq, Prod.mk.injEq] at h
      simp [h.1, h.2]
    · exact ih _ h

theorem Lidar.countTick_clock (now : Int) (s : Lidar) :
    (Lidar.countTick now s).enc_t0 = now % 4294967296 ∧
    (Lidar.countTick now s).enc_dt = (now % 4294967296 - s.enc_t0) % 4294967296 := by
  unfold Lidar.countTick ULONG_RANGE
  dsimp only
  split_ifs <;> exact ⟨rfl, rfl⟩

theorem Lidar.waitFirstTick_state (pre rem : List Sample) (s s1 : Lidar)
    (h : Lidar.waitFirstTick pre s = some (rem, s1)) :
    s1.motorDirection = s.motorDirection ∧ 0 ≤ s1.enc_t0 ∧ s1.enc_t0 < 4294967296 := by
  induction pre generalizing s with
  | nil => simp [Lidar.waitFirstTick] at h
  | cons x xs ih =>
    simp only [Lidar.waitFirstTick] at h
    have hm := (Lidar.update_motor x s).2.2.1
    split_ifs at h with hf
    · simp only [Option.some.injEq, Prod.mk.injEq] at h
      have hc : x.reading1 < ENCODER_LOW_VALUE ∧ s.encoderLow = true := by
        by_contra hc
        rw [(Lidar.update_idle x s hc).1] at hf
        exact Bool.noConfusion hf
      rw [← h.2]
      refine ⟨hm, ?_⟩
      rw [Lidar.update_fire x s hc]
      rw [(Lidar.countTick_clock x.now s).1]
      omega
    · obtain ⟨i1, i2⟩ := ih _ h
      exact ⟨i1.trans hm, i2⟩

/-- One simulated tick, an arming sample and then a firing sample, taken through the loop
of lines 343 to 351. -/
theorem Lidar.findSlowestLoop_tick (hi lo : Int) (hhi : hi > 800) (hlo : lo < 300)
    (t now : Int) (more : List Sample) (s : Lidar) (md mt : Int)
    (hrot : s.encoderRotations = 0) :
    Lidar.findSlowestLoop (⟨hi, hi, t⟩ :: ⟨lo, lo, now⟩ :: more) s md mt =
      (if (Lidar.countTick now { s with encoderLow := true }).enc_dt > md then
        Lidar.findSlowestLoop more (Lidar.countTick now { s with encoderLow := true })
          (Lidar.countTick now { s with encoderLow := true }).enc_dt
          (Lidar.countTick now { s with encoderLow := true }).encoderCounts
      else
        Lidar.findSlowestLoop more (Lidar.countTick now { s with encoderLow := true })
          md mt) := by
  have h1 : Lidar.update ⟨hi, hi, t⟩ s = (false, { s with encoderLow := true }) := by
    unfold Lidar.update ENCODER_LOW_VALUE ENCODER_HIGH_VALUE
    rw [if_neg (by simp only [not_and]; intro hh; omega), if_pos (by simpa using hhi)]
  have h2 : Lidar.update ⟨lo, lo, now⟩ { s with encoderLow := true } =
      (true, Lidar.countTick now { s with encoderLow := true }) :=
    Lidar.update_fire _ _ ⟨hlo, rfl⟩
  rw [Lidar.findSlowestLoop, if_pos hrot, h1]
  simp only [Bool.false_eq_true, if_false]
  rw [Lidar.findSlowestLoop, if_pos (by exact hrot), h2]
  simp only [if_true]

theorem Lidar.findSlowestLoop_done (xs : List Sample) (s : Lidar) (md mt : Int)
    (hrot : s.encoderRotations ≠ 0) :
    Lidar.findSlowestLoop xs s md mt = some (xs, s, md, mt) := by
  cases xs with
  | nil => rw [Lidar.findSlowestLoop, if_neg hrot]
  | cons x xs => rw [Lidar.findSlowestLoop, if_neg hrot]

/-- A forward tick counted from an armed state whose tick count is in [0, 38). -/
theorem Lidar.countTick_forward (now : Int) (s : Lidar) (hd : s.motorDirection = true)
    (hc : 0 ≤ s.encoderCounts ∧ s.encoderCounts < 38) :
    (Lidar.countTick now { s with encoderLow := true }).motorDirection = true ∧
    (Lidar.countTick now { s with encoderLow := true }).encoderCounts =
      (s.encoderCounts + 1) % 38 ∧
    (Lidar.countTick now { s with encoderLow := true }).encoderRotations =
      s.encoderRotations + (if s.encoderCounts = 37 then 1 else 0) := by
  unfold Lidar.countTick TICKS_PER_ROTATION
  dsimp only
  rw [if_pos hd]
  split_ifs <;> simp [hd] <;> omega

theorem Lidar.tickSamples_cons (hi lo t d : Int) (ds : List Int) (more : List Sample) :
    Lidar.tickSamples hi lo t (d :: ds) ++ more =
      ⟨hi, hi, t⟩ :: ⟨lo, lo, (t + d) % 4294967296⟩ ::
        (Lidar.tickSamples hi lo ((t + d) % 4294967296) ds ++ more) := by
  simp [Lidar.tickSamples, ULONG_RANGE]

/-- The loop of lines 343 to 351 over simulated ticks that complete the rotation: it ends
at the last of them with the largest period and its tick index. -/
theorem Lidar.findSlowestLoop_ticks (hi lo : Int) (hhi : hi > 800) (hlo : lo < 300)
    (more : List Sample) (ds : List Int) :
    ∀ (s : Lidar) (md mt : Int), ds ≠ [] →
      (∀ d ∈ ds, 0 ≤ d ∧ d < 4294967296) →
      s.motorDirection = true → s.encoderRotations = 0 →
      0 ≤ s.encoderCounts → s.encoderCounts + ds.length = 38 →
      0 ≤ s.enc_t0 ∧ s.enc_t0 < 4294967296 →
      ∃ s1, Lidar.findSlowestLoop (Lidar.tickSamples hi lo s.enc_t0 ds ++ more) s md mt =
        some (more, s1, (Lidar.slowestOf s.encoderCounts ds (md, mt)).1,
          (Lidar.slowestOf s.encoderCounts ds (md, mt)).2) := by
  induction ds with
  | nil => intro s md mt hne; exact absurd rfl hne
  | cons d ds ih =>
    intro s md mt _ hds hdir hrot hc0 hlen ht
    have hd := hds d (List.mem_cons_self d ds)
    have hlen2 : s.encoderCounts + (ds.length : Int) + 1 = 38 := by
      simpa [add_assoc] using hlen
    have hc : 0 ≤ s.encoderCounts ∧ s.encoderCounts < 38 := by omega
    obtain ⟨f1, f2, f3⟩ := Lidar.countTick_forward ((s.enc_t0 + d) % 4294967296) s hdir hc
    obtain ⟨k1, k2⟩ := Lidar.countTick_clock ((s.enc_t0 + d) % 4294967296)
      { s with encoderLow := true }
    have hdt : (Lidar.countTick ((s.enc_t0 + d) % 4294967296)
        { s with encoderLow := true }).enc_dt = d := by
      rw [k2]
      show ((s.enc_t0 + d) % 4294967296 % 4294967296 - s.enc_t0) % 4294967296 = d
      omega
    rw [Lidar.tickSamples_cons, Lidar.findSlowestLoop_tick hi lo hhi hlo _ _ _ s md mt hrot,
      hdt, f2]
    by_cases hnil : ds = []
    · subst hnil
      have h37 : s.encoderCounts = 37 := by
        simp only [List.length_nil, Nat.cast_zero] at hlen2
        omega
      have hr : (Lidar.countTick ((s.enc_t0 + d) % 4294967296)
          { s with encoderLow := true }).encoderRotations ≠ 0 := by
        rw [f3, hrot, if_pos h37]; decide
      refine ⟨Lidar.countTick ((s.enc_t0 + d) % 4294967296) { s with encoderLow := true }, ?_⟩
      simp only [Lidar.tickSamples, List.nil_append, Lidar.slowestOf]
      split_ifs <;> rw [Lidar.findSlowestLoop_done _ _ _ _ hr]
    · have hlt : s.encoderCounts ≠ 37 := by
        intro h37
        have : ds.length = 0 := by omega
        exact hnil (List.length_eq_zero.mp this)
      have hr : (Lidar.countTick ((s.enc_t0 + d) % 4294967296)
          { s with encoderLow := true }).encoderRotations = 0 := by
        rw [f3, hrot, if_neg hlt]; rfl
      have ht1 : 0 ≤ (Lidar.countTick ((s.enc_t0 + d) % 4294967296)
            { s with encoderLow := true }).enc_t0 ∧
          (Lidar.countTick ((s.enc_t0 + d) % 4294967296)
            { s with encoderLow := true }).enc_t0 < 4294967296 := by
        rw [k1]; omega
      have ht0 : (s.enc_t0 + d) % 4294967296 =
          (Lidar.countTick ((s.enc_t0 + d) % 4294967296)
            { s with encoderLow := true }).enc_t0 := by
        rw [k1]; omega
      have hcount : 0 ≤ (Lidar.countTick ((s.enc_t0 + d) % 4294967296)
            { s with encoderLow := true }).encoderCounts ∧
          (Lidar.countTick ((s.enc_t0 + d) % 4294967296)
            { s with encoderLow := true }).encoderCounts + (ds.length : Int) = 38 := by
        rw [f2]; omega
      have step := fun md2 mt2 => ih
        (Lidar.countTick ((s.enc_t0 + d) % 4294967296) { s with encoderLow := true })
        md2 mt2 hnil (fun e he => hds e (List.mem_cons_of_mem d he)) f1 hr hcount.1
        hcount.2 ht1
      rw [f2, ← ht0] at step
      simp only [Lidar.slowestOf]
      split_ifs with hgt
      · exact step d ((s.encoderCounts + 1) % 38)
      · exact step md mt

theorem Lidar.slowestOf_le (ds : List Int) :
    ∀ (c md mt : Int), (∀ d ∈ ds, d ≤ md) → Lidar.slowestOf c ds (md, mt) = (md, mt) := by
  induction ds with
  | nil => intro c md mt _; rfl
  | cons d ds ih =>
    intro c md mt h
    have hd := h d (List.mem_cons_self d ds)
    simp only [Lidar.slowestOf]
    rw [if_neg (by omega)]
    exact ih _ md mt (fun e he => h e (List.mem_cons_of_mem d he))

theorem Lidar.slowestOf_long (p : Int) (hp : 0 < p) (tail : List Int) (n : Nat) :
    ∀ (c : Int) (acc : Int × Int), 0 ≤ acc.1 → acc.1 ≤ p →
      Lidar.slowestOf c (List.replicate n p ++ 3 * p :: tail) acc =
        Lidar.slowestOf ((c + n + 1) % 38) tail (3 * p, (c + n + 1) % 38) := by
  induction n with
  | zero =>
    intro c acc h0 h1
    simp only [List.replicate, List.nil_append, Lidar.slowestOf, Nat.cast_zero, add_zero]
    rw [if_pos (by omega)]
  | succ n ih =>
    intro c acc h0 h1
    rw [List.replicate_succ, List.cons_append, Lidar.slowestOf]
    have hidx : ((c + 1) % 38 + (n : Int) + 1) % 38 = (c + ((n + 1 : Nat) : Int) + 1) % 38 := by
      push_cast
      omega
    split_ifs with hgt
    · rw [ih ((c + 1) % 38) (p, (c + 1) % 38) (by simpa using hp.le) (by simp), hidx]
    · rw [ih ((c + 1) % 38) acc h0 h1, hidx]

theorem Lidar.slowestOf_tickPeriods (p : Int) (hp : 0 < p) (j : Nat) :
    Lidar.slowestOf 0 (Lidar.tickPeriods p j) (0, 0) = (3 * p, ((j : Int) + 1) % 38) := by
  unfold Lidar.tickPeriods
  rw [Lidar.slowestOf_long p hp _ j 0 (0, 0) (le_refl _) hp.le, zero_add]
  exact Lidar.slowestOf_le _ _ _ _ (fun d hd => by
    rw [List.eq_of_mem_replicate hd]; omega)

/-- The tracker after simulated forward ticks: the tick count has advanced by their number,
modulo 38, and the last period measured is the last of the simulated periods. -/
theorem Lidar.updates_tickSamples (hi lo : Int) (hhi : hi > 800) (hlo : lo < 300)
    (dl : Int) (hdl : 0 ≤ dl ∧ dl < 4294967296) (ds : List Int) :
    ∀ (s : Lidar), (∀ d ∈ ds, 0 ≤ d ∧ d < 4294967296) →
      s.motorDirection = true → (0 ≤ s.encoderCounts ∧ s.encoderCounts < 38) →
      (0 ≤ s.enc_t0 ∧ s.enc_t0 < 4294967296) →
      (Lidar.updates (Lidar.tickSamples hi lo s.enc_t0 (ds ++ [dl])) s).encoderCounts =
        (s.encoderCounts + ds.length + 1) % 38 ∧
      (Lidar.updates (Lidar.tickSamples hi lo s.enc_t0 (ds ++ [dl])) s).enc_dt = dl := by
  have arm : ∀ (s : Lidar) (t : Int),
      Lidar.update ⟨hi, hi, t⟩ s = (false, { s with encoderLow := true }) := by
    intro s t
    unfold Lidar.update ENCODER_LOW_VALUE ENCODER_HIGH_VALUE
    rw [if_neg (by simp only [not_and]; intro hh; omega), if_pos (by simpa using hhi)]
  have fire : ∀ (s : Lidar) (now : Int),
      Lidar.update ⟨lo, lo, now⟩ { s with encoderLow := true } =
        (true, Lidar.countTick now { s with encoderLow := true }) :=
    fun s now => Lidar.update_fire _ _ ⟨hlo, rfl⟩
  induction ds with
  | nil =>
    intro s _ hdir hc ht
    obtain ⟨_, f2, _⟩ := Lidar.countTick_forward ((s.enc_t0 + dl) % 4294967296) s hdir hc
    obtain ⟨_, k2⟩ := Lidar.countTick_clock ((s.enc_t0 + dl) % 4294967296)
      { s with encoderLow := true }
    simp only [List.nil_append, Lidar.tickSamples, Lidar.updates, ULONG_RANGE, arm, fire,
      List.length_nil, Nat.cast_zero, add_zero]
    refine ⟨f2, ?_⟩
    rw [k2]
    show ((s.enc_t0 + dl) % 4294967296 % 4294967296 - s.enc_t0) % 4294967296 = dl
    omega
  | cons d ds ih =>
    intro s hds hdir hc ht
    have hd := hds d (List.mem_cons_self d ds)
    obtain ⟨f1, f2, _⟩ := Lidar.countTick_forward ((s.enc_t0 + d) % 4294967296) s hdir hc
    obtain ⟨k1, _⟩ := Lidar.countTick_clock ((s.enc_t0 + d) % 4294967296)
      { s with encoderLow := true }
    have ht0 : (s.enc_t0 + d) % 4294967296 =
        (Lidar.countTick ((s.enc_t0 + d) % 4294967296)
          { s with encoderLow := true }).enc_t0 := by
      rw [k1]; omega
    have step := ih (Lidar.countTick ((s.enc_t0 + d) % 4294967296) { s with encoderLow := true })
      (fun e he => hds e (List.mem_cons_of_mem d he)) f1 (by rw [f2]; omega)
      (by rw [k1]; omega)
    rw [← ht0, f2] at step
    simp only [List.cons_append, Lidar.tickSamples, Lidar.updates, ULONG_RANGE, arm, fire,
      List.length_cons, Nat.cast_add, Nat.cast_one]
    refine ⟨step.1.trans ?_, step.2⟩
    omega

theorem Lidar.tickPeriods_length (p : Int) (j : Nat) (hj : j < 38) :
    (Lidar.tickPeriods p j).length = 38 := by
  unfold Lidar.tickPeriods
  simp only [List.length_append, List.length_replicate, List.length_cons]
  omega

theorem Lidar.tickPeriods_range (p : Int) (j : Nat) (hp : 0 < p) (hp3 : 3 * p < 4294967296) :
    ∀ d ∈ Lidar.tickPeriods p j, 0 ≤ d ∧ d < 4294967296 := by
  intro d hd
  unfold Lidar.tickPeriods at hd
  simp only [List.mem_append, List.mem_cons] at hd
  rcases hd with hd | hd | hd
  · rw [List.eq_of_mem_replicate hd]; omega
  · rw [hd]; omega
  · rw [List.eq_of_mem_replicate hd]; omega

/-- C10: in the first part of `calibrate()`, once the first tick has fired and the counts
have been zeroed, for 38 simulated forward ticks whose periods are all `p` except the one
at position `j`, which is `3 * p`, the loop ends at the last of them with `max_dt = 3 * p`
and `max_tick = (j + 1) mod 38`, which is the tick count the tracker shows right after the
tick with the long period. -/
theorem Lidar.findSlowestTick_selects (s s1 : Lidar) (pre more : List Sample)
    (hi lo p : Int) (j : Nat)
    (hpre : Lidar.waitFirstTick pre (Lidar.setMotorSpeed (MIN_MOTOR_SPEED + 10) s) =
      some ([], s1))
    (hhi : hi > 800) (hlo : lo < 300) (hp : 0 < p) (hp3 : 3 * p < 4294967296)
    (hj : j < 38) :
    (∃ s2, Lidar.findSlowestTick
        (pre ++ (Lidar.tickSamples hi lo s1.enc_t0 (Lidar.tickPeriods p j) ++ more)) s =
      some (more, s2, 3 * p, ((j : Int) + 1) % 38)) ∧
    (Lidar.updates (Lidar.tickSamples hi lo s1.enc_t0 (List.replicate j p ++ [3 * p]))
      { s1 with encoderCounts := 0, encoderRotations := 0 }).encoderCounts =
        ((j : Int) + 1) % 38 ∧
    (Lidar.updates (Lidar.tickSamples hi lo s1.enc_t0 (List.replicate j p ++ [3 * p]))
      { s1 with encoderCounts := 0, encoderRotations := 0 }).enc_dt = 3 * p := by
  obtain ⟨hdir, ht⟩ := Lidar.waitFirstTick_state pre [] _ s1 hpre
  have hfwd : s1.motorDirection = true := by
    rw [hdir, Lidar.setMotorSpeed_motorDirection]
    decide
  have hlen : ((Lidar.tickPeriods p j).length : Int) = 38 := by
    rw [Lidar.tickPeriods_length p j hj]; rfl
  have hne : Lidar.tickPeriods p j ≠ [] := by
    intro h
    rw [h] at hlen
    simp at hlen
  refine ⟨?_, ?_⟩
  · obtain ⟨s2, h2⟩ := Lidar.findSlowestLoop_ticks hi lo hhi hlo more (Lidar.tickPeriods p j)
      { s1 with encoderCounts := 0, encoderRotations := 0 } 0 0 hne
      (Lidar.tickPeriods_range p j hp hp3) hfwd rfl (le_refl _)
      (by show (0 : Int) + _ = 38; omega) ht
    refine ⟨s2, ?_⟩
    unfold Lidar.findSlowestTick
    rw [Lidar.waitFirstTick_append pre _ _ s1 hpre]
    dsimp only
    rw [Lidar.slowestOf_tickPeriods p hp j] at h2
    exact h2
  · have hu := Lidar.updates_tickSamples hi lo hhi hlo (3 * p) ⟨by omega, hp3⟩
      (List.replicate j p) { s1 with encoderCounts := 0, encoderRotations := 0 }
      (fun d hd => by rw [List.eq_of_mem_replicate hd]; omega) hfwd
      ⟨le_refl _, show (0 : Int) < 38 by decide⟩ ht
    simp only [List.length_replicate, zero_add] at hu
    exact hu

/-- Witness of C10: a first tick at 1000 microseconds, then 38 ticks 500 microseconds
apart except the fifth, which takes 1500; the loop records tick index 5. -/
theorem Lidar.findSlowestTick_selects_witness :
    Lidar.waitFirstTick [⟨900, 900, 0⟩, ⟨100, 100, 1000⟩]
        (Lidar.setMotorSpeed (MIN_MOTOR_SPEED + 10) Lidar.fresh) =
      some ([], (Lidar.update ⟨100, 100, 1000⟩ (Lidar.update ⟨900, 900, 0⟩
        (Lidar.setMotorSpeed (MIN_MOTOR_SPEED + 10) Lidar.fresh)).2).2) ∧
    ((∃ s2, Lidar.findSlowestTick
        ([⟨900, 900, 0⟩, ⟨100, 100, 1000⟩] ++
          (Lidar.tickSamples 900 100
            (Lidar.update ⟨100, 100, 1000⟩ (Lidar.update ⟨900, 900, 0⟩
              (Lidar.setMotorSpeed (MIN_MOTOR_SPEED + 10) Lidar.fresh)).2).2.enc_t0
            (Lidar.tickPeriods 500 4) ++ [])) Lidar.fresh =
      some ([], s2, 3 * 500, (((4 : Nat) : Int) + 1) % 38)) ∧
    (Lidar.updates (Lidar.tickSamples 900 100
        (Lidar.update ⟨100, 100, 1000⟩ (Lidar.update ⟨900, 900, 0⟩
          (Lidar.setMotorSpeed (MIN_MOTOR_SPEED + 10) Lidar.fresh)).2).2.enc_t0
        (List.replicate 4 500 ++ [3 * 500]))
      { (Lidar.update ⟨100, 100, 1000⟩ (Lidar.update ⟨900, 900, 0⟩
          (Lidar.setMotorSpeed (MIN_MOTOR_SPEED + 10) Lidar.fresh)).2).2 with
        encoderCounts := 0, encoderRotations := 0 }).encoderCounts =
          (((4 : Nat) : Int) + 1) % 38 ∧
    (Lidar.updates (Lidar.tickSamples 900 100
        (Lidar.update ⟨100, 100, 1000⟩ (Lidar.update ⟨900, 900, 0⟩
          (Lidar.setMotorSpeed (MIN_MOTOR_SPEED + 10) Lidar.fresh)).2).2.enc_t0
        (List.replicate 4 500 ++ [3 * 500]))
      { (Lidar.update ⟨100, 100, 1000⟩ (Lidar.update ⟨900, 900, 0⟩
          (Lidar.setMotorSpeed (MIN_MOTOR_SPEED + 10) Lidar.fresh)).2).2 with
        encoderCounts := 0, encoderRotations := 0 }).enc_dt = 3 * 500) :=
  ⟨by decide,
    Lidar.findSlowestTick_selects Lidar.fresh _ [⟨900, 900, 0⟩, ⟨100, 100, 1000⟩] []
      900 100 500 4 (by decide) (by decide) (by decide) (by decide) (by decide) (by decide)⟩
